import Mathlib

/-!
Verification of the CAPTCHA-solving subsystem and session transport of the
shopee-cli repository, embedded shallowly from `src/shopee_cli/captcha.py`
and `src/shopee_cli/client.py`.

Pure numeric code (crop-box computation, drag-distance clamping) is embedded
over `ℚ`/`ℤ`; browser and network effects are embedded as explicit per-attempt
environments describing the outcome of each external call, and the solve
orchestrator becomes a fuel-bounded recursion producing its boolean result
together with a trace of external events.
-/

namespace ShopeeCli

/-! ## Constants (captcha.py lines 24-27) -/

def API_BASE : String := "https://api.2captcha.com"

def MAX_ATTEMPTS : Nat := 8

def POLL_INTERVAL : Nat := 2

def POLL_TIMEOUT : Nat := 60

/-! ## Coordinate mapper: crop box (`_crop_captcha`, captcha.py lines 232-255) -/

/-- Python `int()` applied to a real value: truncation toward zero. -/
def pytrunc (q : ℚ) : ℤ := if 0 ≤ q then ⌊q⌋ else ⌈q⌉

/-- Widget bounding box as returned by the bounds-probing script
(`_GET_CAPTCHA_BOUNDS_JS`): page-space x, y, width, height. -/
structure WidgetBounds where
  x : ℚ
  y : ℚ
  width : ℚ
  height : ℚ
deriving DecidableEq

/-- The crop rectangle computed by `_crop_captcha`; `left`/`top` are also the
`crop_info` offsets returned for mapping solver coordinates back to page
space. -/
structure CropBox where
  left : ℤ
  top : ℤ
  right : ℤ
  bottom : ℤ
deriving DecidableEq

/-- Embedding of `_crop_captcha` (captcha.py lines 244-247): margin 10,
`left`/`top` clamped below by 0, `right`/`bottom` clamped above by the
screenshot dimensions. -/
def cropCaptchaBox (b : WidgetBounds) (imgW imgH : ℤ) : CropBox :=
  { left := max 0 (pytrunc b.x - 10)
    top := max 0 (pytrunc b.y - 10)
    right := min imgW (pytrunc (b.x + b.width) + 10)
    bottom := min imgH (pytrunc (b.y + b.height) + 10) }

/-! ## Coordinate mapper: drag distance (captcha.py lines 196-206) -/

/-- CAPTCHA layout as returned by `_GET_LAYOUT_JS`, restricted to the fields
the drag computation reads. -/
structure CaptchaLayout where
  img_x : ℚ
  piece_w : ℚ
  slider_w : ℚ
  track_w : ℚ
deriving DecidableEq

/-- Embedding of the drag-distance computation in `solve_captcha`
(captcha.py lines 203-206): `slot_in_image = page_x - img_left`,
`drag_distance = slot_in_image - piece_w / 2`, clamped by
`max(0.0, min(drag_distance, track_w - slider_w))`. -/
def dragDistance (L : CaptchaLayout) (page_x : ℚ) : ℚ :=
  let slot_in_image := page_x - L.img_x
  let d := slot_in_image - L.piece_w / 2
  let max_drag := L.track_w - L.slider_w
  max 0 (min d max_drag)

/-! ## Raw request classification (`ShopeeClient._fetch`, client.py 126-147) -/

/-- A Python exception as raised by `_fetch`: its class name and message. -/
structure RaisedExc where
  cls : String
  msg : String
deriving DecidableEq

/-- The JSON body of a Shopee API response, restricted to the fields `_fetch`
inspects. -/
structure ApiBody where
  error : Option ℤ
  error_msg : Option String
deriving DecidableEq

def sessionExpiredMsg : String :=
  "Session expired. Run \x27shopee login\x27 to re-authenticate."

def antiBotMsg : String := "Anti-bot block."

/-- Embedding of the status/payload classification in `ShopeeClient._fetch`
(client.py lines 130-147). `parsed` is the result of `json.loads` on the
response body (`none` when parsing raises). On 401/403 a body whose `error`
field is 90309999 raises `SessionExpired("Anti-bot block.")`; every other
401/403 raises `SessionExpired("Session expired. ...")`. Off the 401/403
path an unparseable body raises `JSONDecodeError`, and otherwise the parsed
body is returned (generic API errors are logged but still returned). -/
def fetchClassify (status : ℤ) (parsed : Option ApiBody) :
    Except RaisedExc ApiBody :=
  if status = 401 ∨ status = 403 then
    match parsed with
    | some d =>
        if d.error = some 90309999 then
          .error ⟨"SessionExpired", antiBotMsg⟩
        else
          .error ⟨"SessionExpired", sessionExpiredMsg⟩
    | none => .error ⟨"SessionExpired", sessionExpiredMsg⟩
  else
    match parsed with
    | none => .error ⟨"JSONDecodeError", "Expecting value"⟩
    | some d => .ok d

/-- The class of the exception raised by a classified fetch, if any. -/
def excClass : Except RaisedExc ApiBody → Option String
  | .error e => some e.cls
  | .ok _ => none

/-! ## 2captcha oracle client (captcha.py lines 64-121) -/

/-- A coordinate returned by the oracle inside `solution.coordinates`. -/
structure Coord where
  x : ℚ
  y : ℚ
deriving DecidableEq

/-- JSON response of `createTask`, restricted to the fields `_create_task`
reads; `none` fields model absent keys. -/
structure CreateResp where
  errorId : Option ℤ
  taskId : Option String
deriving DecidableEq

/-- Embedding of `_create_task` (captcha.py lines 73-76): a response whose
`errorId` (defaulting to 1 when absent) is non-zero yields no task id;
otherwise the task id (defaulting to the empty string) is returned. -/
def createTaskResult (r : CreateResp) : Option String :=
  if r.errorId.getD 1 ≠ 0 then none else some (r.taskId.getD "")

/-- JSON response of `getTaskResult`, restricted to the fields `_get_result`
reads; `coordinates` is `solution.coordinates`. -/
structure PollResp where
  errorId : Option ℤ
  status : Option String
  coordinates : Option (List Coord)
deriving DecidableEq

/-- View of an `Except` value as a sum, for deciding equality. -/
def exceptToSum {ε α : Type} : Except ε α → ε ⊕ α
  | .error e => .inl e
  | .ok a => .inr a

instance {ε α : Type} [DecidableEq ε] [DecidableEq α] :
    DecidableEq (Except ε α) := fun a b =>
  decidable_of_iff (exceptToSum a = exceptToSum b)
    (by cases a <;> cases b <;> simp [exceptToSum])

/-- The external observations of one iteration of `_get_result`'s poll loop:
whether the keepalive/liveness scripts ran without raising, what the liveness
check reported, and the oracle's `getTaskResult` response (`.error` when the
HTTP request raises). -/
structure PollIter where
  driverOk : Bool
  alive : Bool
  pollResp : Except Unit PollResp
deriving DecidableEq

/-- Embedding of `_get_result` (captcha.py lines 79-113). The list is the
schedule of poll iterations that would fit before the 60-second deadline;
the result is paired with the number of iterations actually consumed.
Per iteration: when a driver is supplied and the keepalive/liveness scripts
succeed and report the slider container absent, return `none` (expired)
immediately; then the oracle is polled — a raised request propagates, a
non-zero `errorId` (default 1) returns `none` (failure), a "ready" status
returns the coordinate list (default empty), anything else loops. An
exhausted schedule is the timeout, returning `none`. -/
def getTaskResult (hasDriver : Bool) :
    List PollIter → Except Unit (Option (List Coord)) × Nat
  | [] => (.ok none, 0)
  | it :: rest =>
    if hasDriver && it.driverOk && !it.alive then (.ok none, 1)
    else
      match it.pollResp with
      | .error _ => (.error (), 1)
      | .ok resp =>
        if resp.errorId.getD 1 ≠ 0 then (.ok none, 1)
        else if resp.status = some "ready" then
          (.ok (some (resp.coordinates.getD [])), 1)
        else
          let r := getTaskResult hasDriver rest
          (r.1, r.2 + 1)

/-- Embedding of `_report` (captcha.py lines 116-121): selects the action
endpoint from the correctness flag and performs the API call (modelled by
`apiCall`, which receives the action, client key and task id and may raise);
the entire body is wrapped in `try/except Exception: pass`, so any raise is
swallowed and the function returns normally. -/
def reportFeedback (apiCall : String → String → String → Except Unit PollResp)
    (apiKey taskId : String) (correct : Bool) : Except Unit Unit :=
  match apiCall (if correct then "reportCorrect" else "reportIncorrect")
      apiKey taskId with
  | .ok _ => .ok ()
  | .error _ => .ok ()

/-! ## API-key lookup (`get_api_key`, captcha.py lines 30-46) -/

/-- One line of a .env file, as processed by `get_api_key`: stripped, and if
it starts with `2CAPTCHA_API_KEY=` the remainder after the first `=` is
stripped and returned. -/
def parseEnvLine (raw : String) : Option String :=
  let line := raw.trim
  if line.startsWith "2CAPTCHA_API_KEY=" then
    some ((line.drop "2CAPTCHA_API_KEY=".length).trim)
  else none

/-- The filesystem/environment state `get_api_key` consults: the process
environment variable, and for each of the three searched `.env` paths either
`none` (the file does not exist) or its list of lines. -/
structure KeyEnv where
  envVar : Option String
  envFiles : List (Option (List String))
deriving DecidableEq

/-- The `.env`-file part of `get_api_key` (captcha.py lines 36-45): existing
files are scanned in order and the first matching line of the first file
containing one wins; a file with no matching line falls through to the next
path. -/
def filesSearch : List (Option (List String)) → Option String
  | [] => none
  | none :: rest => filesSearch rest
  | some lines :: rest =>
    match lines.findSome? parseEnvLine with
    | some k => some k
    | none => filesSearch rest

/-- Embedding of `get_api_key` (captcha.py lines 30-46): a truthy (non-empty)
environment variable wins; otherwise the `.env` files are searched. -/
def get_api_key (e : KeyEnv) : Option String :=
  match e.envVar with
  | some k => if k ≠ "" then some k else filesSearch e.envFiles
  | none => filesSearch e.envFiles

/-! ## Solve orchestrator (`solve_captcha`, captcha.py lines 128-229) -/

/-- External events performed by the orchestrator, in order: browser script
executions, oracle HTTP calls, the slider drag (with its computed distance),
feedback reports, and widget refreshes. -/
inductive Ev where
  | attemptStart
  | waitWidget
  | dismiss
  | probeBounds
  | screenshot
  | oracleCreate
  | oraclePoll
  | checkAlive
  | probeLayout
  | drag (dist : ℚ)
  | checkVerify
  | report (correct : Bool)
  | refresh
deriving DecidableEq

/-- Outcome of one attempt of the solve loop: `success` returns `True` from
`solve_captcha`, `failed` falls through to the next attempt. -/
inductive AOut where
  | success
  | failed
deriving DecidableEq

/-- The outcomes of every external call one attempt of the solve loop can
make. `.error` on an `Except`-typed field models that call raising (any
raise inside the attempt body is caught by the attempt-level handler, which
refreshes the widget and continues). `shotW`/`shotH` are the screenshot's
dimensions, read by the crop. -/
structure AttemptEnv where
  dismiss : Except Unit Unit
  bounds : Except Unit (Option WidgetBounds)
  shot : Except Unit Unit
  shotW : ℤ
  shotH : ℤ
  createResp : Except Unit CreateResp
  pollIters : List PollIter
  aliveCheck : Except Unit Bool
  layout : Except Unit (Option CaptchaLayout)
  dragJs : Except Unit Bool
  verifyGone : Except Unit Bool

/-- The coordinate mapping and drag computation of one attempt
(captcha.py lines 186-206): `page_x = target_x + crop_info["left"]` where the
crop info comes from `_crop_captcha` on this attempt's bounds and screenshot,
followed by the clamped drag-distance computation on the re-probed layout. -/
def attemptDragDist (b : WidgetBounds) (shotW shotH : ℤ) (c : Coord)
    (L : CaptchaLayout) : ℚ :=
  dragDistance L (c.x + ((cropCaptchaBox b shotW shotH).left : ℚ))

/-- Embedding of the body of one iteration of the attempt loop in
`solve_captcha` (captcha.py lines 143-226), including `_do_drag_and_check`
(lines 258-271). Mirrors the source's control flow exactly:

* modal dismissal raising → attempt-level handler: refresh, next attempt;
* absent bounds → refresh, next attempt;
* screenshot/crop raising → handler: refresh;
* `_create_task` raising → handler: refresh; returning a falsy task id
  (`None` or the empty string) → next attempt with **no** refresh;
* `_get_result` raising → handler: refresh; returning no/empty coordinates
  → next attempt with **no** report and **no** refresh;
* post-poll liveness check raising → handler: refresh; reporting the slider
  gone → report(false), refresh;
* layout probe raising → handler: refresh; returning null → report(false),
  refresh;
* the drag script raising → handler: refresh; returning false →
  report(false), refresh; otherwise the verification read: raising →
  handler: refresh; "verify" still present → report(false), refresh;
  absent → report(true) and overall success. -/
def attemptBody (e : AttemptEnv) : AOut × List Ev :=
  match e.dismiss with
  | .error _ => (.failed, [.dismiss, .refresh])
  | .ok _ =>
    match e.bounds with
    | .error _ => (.failed, [.dismiss, .probeBounds, .refresh])
    | .ok none => (.failed, [.dismiss, .probeBounds, .refresh])
    | .ok (some b) =>
      match e.shot with
      | .error _ => (.failed, [.dismiss, .probeBounds, .screenshot, .refresh])
      | .ok _ =>
        match e.createResp with
        | .error _ =>
          (.failed, [.dismiss, .probeBounds, .screenshot, .oracleCreate, .refresh])
        | .ok resp =>
          match createTaskResult resp with
          | none =>
            (.failed, [.dismiss, .probeBounds, .screenshot, .oracleCreate])
          | some tid =>
            if tid = "" then
              (.failed, [.dismiss, .probeBounds, .screenshot, .oracleCreate])
            else
              match (getTaskResult true e.pollIters).1 with
              | .error _ =>
                (.failed, [.dismiss, .probeBounds, .screenshot, .oracleCreate,
                  .oraclePoll, .refresh])
              | .ok none =>
                (.failed, [.dismiss, .probeBounds, .screenshot, .oracleCreate,
                  .oraclePoll])
              | .ok (some []) =>
                (.failed, [.dismiss, .probeBounds, .screenshot, .oracleCreate,
                  .oraclePoll])
              | .ok (some (c :: _)) =>
                match e.aliveCheck with
                | .error _ =>
                  (.failed, [.dismiss, .probeBounds, .screenshot, .oracleCreate,
                    .oraclePoll, .checkAlive, .refresh])
                | .ok false =>
                  (.failed, [.dismiss, .probeBounds, .screenshot, .oracleCreate,
                    .oraclePoll, .checkAlive, .report false, .refresh])
                | .ok true =>
                  match e.layout with
                  | .error _ =>
                    (.failed, [.dismiss, .probeBounds, .screenshot, .oracleCreate,
                      .oraclePoll, .checkAlive, .probeLayout, .refresh])
                  | .ok none =>
                    (.failed, [.dismiss, .probeBounds, .screenshot, .oracleCreate,
                      .oraclePoll, .checkAlive, .probeLayout, .report false,
                      .refresh])
                  | .ok (some L) =>
                    match e.dragJs with
                    | .error _ =>
                      (.failed, [.dismiss, .probeBounds, .screenshot,
                        .oracleCreate, .oraclePoll, .checkAlive, .probeLayout,
                        .drag (attemptDragDist b e.shotW e.shotH c L), .refresh])
                    | .ok false =>
                      (.failed, [.dismiss, .probeBounds, .screenshot,
                        .oracleCreate, .oraclePoll, .checkAlive, .probeLayout,
                        .drag (attemptDragDist b e.shotW e.shotH c L), .report false, .refresh])
                    | .ok true =>
                      match e.verifyGone with
                      | .error _ =>
                        (.failed, [.dismiss, .probeBounds, .screenshot,
                          .oracleCreate, .oraclePoll, .checkAlive, .probeLayout,
                          .drag (attemptDragDist b e.shotW e.shotH c L), .checkVerify, .refresh])
                      | .ok false =>
                        (.failed, [.dismiss, .probeBounds, .screenshot,
                          .oracleCreate, .oraclePoll, .checkAlive, .probeLayout,
                          .drag (attemptDragDist b e.shotW e.shotH c L), .checkVerify, .report false, .refresh])
                      | .ok true =>
                        (.success, [.dismiss, .probeBounds, .screenshot,
                          .oracleCreate, .oraclePoll, .checkAlive, .probeLayout,
                          .drag (attemptDragDist b e.shotW e.shotH c L), .checkVerify, .report true])

/-- One full attempt: the loop header's attempt banner followed by the
attempt body. -/
def runAttempt (e : AttemptEnv) : AOut × List Ev :=
  ((attemptBody e).1, .attemptStart :: (attemptBody e).2)

/-- Decidable success condition of one attempt, read off the environment:
every external call on the success path completed, the task id was truthy,
the poll delivered a non-empty coordinate list, the widget stayed alive, the
drag script succeeded and the post-drag verification text was gone. -/
def attemptSucceedsB (e : AttemptEnv) : Bool :=
  match e.dismiss, e.bounds, e.shot, e.createResp, e.aliveCheck, e.layout,
      e.dragJs, e.verifyGone with
  | .ok _, .ok (some _), .ok _, .ok resp, .ok true, .ok (some _), .ok true,
      .ok true =>
    (match createTaskResult resp with
     | some tid =>
       (!(tid == "")) &&
         (match (getTaskResult true e.pollIters).1 with
          | .ok (some (_ :: _)) => true
          | _ => false)
     | none => false)
  | _, _, _, _, _, _, _, _ => false

/-- The attempt loop of `solve_captcha` (captcha.py line 140): run attempts
`k`, `k+1`, ... while fuel remains; a successful attempt returns `true`
immediately, exhausted fuel returns `false`. -/
def solveFrom (env : Nat → AttemptEnv) : Nat → Nat → Bool × List Ev
  | _, 0 => (false, [])
  | k, fuel + 1 =>
    match runAttempt (env k) with
    | (.success, evs) => (true, evs)
    | (.failed, evs) =>
      ((solveFrom env (k + 1) fuel).1, evs ++ (solveFrom env (k + 1) fuel).2)

/-- Embedding of `solve_captcha` (captcha.py lines 128-229): a falsy API key
(absent, or empty after lookup) returns `False` with no external activity at
all; otherwise the widget wait runs and then up to `MAX_ATTEMPTS` attempts,
numbered from 1. -/
def solve_captcha (ke : KeyEnv) (env : Nat → AttemptEnv) : Bool × List Ev :=
  match get_api_key ke with
  | none => (false, [])
  | some k =>
    if k = "" then (false, [])
    else
      ((solveFrom env 1 MAX_ATTEMPTS).1,
        .waitWidget :: (solveFrom env 1 MAX_ATTEMPTS).2)

/-! ## Claim C2: drag-distance formula and clamping -/

/-- Claim C2 as stated is false: it asserts that for every probed layout the
computed drag distance lies in `[0, track_w − slider_w]`, but for the layout
`{img_x: 0, piece_w: 0, slider_w: 40, track_w: 10}` (slider wider than the
track, which no probed layout is prevented from reporting) the clamp
`max(0, min(d, track_w − slider_w))` produces 0, which is strictly greater
than `track_w − slider_w = −30`. -/
theorem claim2_counterexample :
    dragDistance ⟨0, 0, 40, 10⟩ 0 = 0
      ∧ ¬ (dragDistance ⟨0, 0, 40, 10⟩ 0 ≤ (10 : ℚ) - 40) := by
  constructor <;> norm_num [dragDistance]

/-- Claim C2, amended: for every layout and mapped page-space target, the
computed drag distance equals
`max(0, min((pageX − img_x) − piece_w/2, track_w − slider_w))`; whenever the
layout satisfies `slider_w ≤ track_w` the distance lies in
`[0, track_w − slider_w]` inclusive; and in the scenario layout
`{img_x: 50, piece_w: 40, slider_w: 40, track_w: 300}` with oracle target
page x = 150, the slot center is 100 and the drag distance is 80. -/
theorem claim2_amended (L : CaptchaLayout) (x : ℚ) :
    dragDistance L x
        = max 0 (min ((x - L.img_x) - L.piece_w / 2) (L.track_w - L.slider_w))
      ∧ (L.slider_w ≤ L.track_w →
          0 ≤ dragDistance L x ∧ dragDistance L x ≤ L.track_w - L.slider_w)
      ∧ ((150 : ℚ) - 50 = 100 ∧ dragDistance ⟨50, 40, 40, 300⟩ 150 = 80) := by
  refine ⟨rfl, fun h => ⟨le_max_left _ _, ?_⟩, by norm_num, by norm_num [dragDistance]⟩
  exact max_le (by linarith) (min_le_right _ _)

/-- Witness for the amended C2 at the scenario layout. -/
theorem claim2_witness :
    (40 : ℚ) ≤ 300
      ∧ 0 ≤ dragDistance ⟨50, 40, 40, 300⟩ 150
      ∧ dragDistance ⟨50, 40, 40, 300⟩ 150 ≤ (300 : ℚ) - 40 :=
  ⟨by norm_num,
    ((claim2_amended ⟨50, 40, 40, 300⟩ 150).2.1 (by norm_num)).1,
    ((claim2_amended ⟨50, 40, 40, 300⟩ 150).2.1 (by norm_num)).2⟩

/-! ## Claim C3: crop box formulas and clamping -/

/-- Claim C3 as stated is false: it asserts the crop rectangle lies within
`[0, imageWidth] × [0, imageHeight]` for every widget bounds and screenshot,
but `left` is only clamped below — for bounds `x = 5000` on a 1000-pixel-wide
screenshot the computed `left` is 4990, outside `[0, 1000]`. -/
theorem claim3_counterexample :
    (cropCaptchaBox ⟨5000, 200, 300, 150⟩ 1000 800).left = 4990
      ∧ ¬ ((cropCaptchaBox ⟨5000, 200, 300, 150⟩ 1000 800).left ≤ 1000) := by
  constructor <;> norm_num [cropCaptchaBox, pytrunc]

/-- Claim C3, amended: for every widget bounds lying inside the screenshot
(components nonnegative, `x + width ≤ imageWidth`, `y + height ≤ imageHeight`
— which is what the probing script produces, since the bounds come from the
same page the screenshot captures), the crop has
`left = max(0, ⌊x⌋ − 10)`, `top = max(0, ⌊y⌋ − 10)`,
`right = min(imageWidth, ⌊x + width⌋ + 10)`,
`bottom = min(imageHeight, ⌊y + height⌋ + 10)`, and the crop rectangle lies
within `[0, imageWidth] × [0, imageHeight]`; the scenario bounds
`{x: 100, y: 200, width: 300, height: 150}` yield crop offset
`{left: 90, top: 190}`. -/
theorem claim3_amended (b : WidgetBounds) (W H : ℤ)
    (hx : 0 ≤ b.x) (hy : 0 ≤ b.y) (hw : 0 ≤ b.width) (hh : 0 ≤ b.height)
    (hxw : b.x + b.width ≤ (W : ℚ)) (hyh : b.y + b.height ≤ (H : ℚ)) :
    ((cropCaptchaBox b W H).left = max 0 (⌊b.x⌋ - 10)
      ∧ (cropCaptchaBox b W H).top = max 0 (⌊b.y⌋ - 10)
      ∧ (cropCaptchaBox b W H).right = min W (⌊b.x + b.width⌋ + 10)
      ∧ (cropCaptchaBox b W H).bottom = min H (⌊b.y + b.height⌋ + 10))
    ∧ (0 ≤ (cropCaptchaBox b W H).left ∧ (cropCaptchaBox b W H).left ≤ W
      ∧ 0 ≤ (cropCaptchaBox b W H).top ∧ (cropCaptchaBox b W H).top ≤ H
      ∧ 0 ≤ (cropCaptchaBox b W H).right ∧ (cropCaptchaBox b W H).right ≤ W
      ∧ 0 ≤ (cropCaptchaBox b W H).bottom ∧ (cropCaptchaBox b W H).bottom ≤ H)
    ∧ ((cropCaptchaBox ⟨100, 200, 300, 150⟩ 2000 1500).left = 90
      ∧ (cropCaptchaBox ⟨100, 200, 300, 150⟩ 2000 1500).top = 190) := by
  have hxw0 : 0 ≤ b.x + b.width := add_nonneg hx hw
  have hyh0 : 0 ≤ b.y + b.height := add_nonneg hy hh
  have hW : (0 : ℤ) ≤ W := by exact_mod_cast hxw0.trans hxw
  have hH : (0 : ℤ) ≤ H := by exact_mod_cast hyh0.trans hyh
  have hfx : ⌊b.x⌋ ≤ W := by
    have h1 : (⌊b.x⌋ : ℚ) ≤ (W : ℚ) :=
      (Int.floor_le b.x).trans ((le_add_of_nonneg_right hw).trans hxw)
    exact_mod_cast h1
  have hfy : ⌊b.y⌋ ≤ H := by
    have h1 : (⌊b.y⌋ : ℚ) ≤ (H : ℚ) :=
      (Int.floor_le b.y).trans ((le_add_of_nonneg_right hh).trans hyh)
    exact_mod_cast h1
  have hfxw : 0 ≤ ⌊b.x + b.width⌋ := Int.floor_nonneg.mpr hxw0
  have hfyh : 0 ≤ ⌊b.y + b.height⌋ := Int.floor_nonneg.mpr hyh0
  refine ⟨?_, ?_, by norm_num [cropCaptchaBox, pytrunc]⟩
  · simp [cropCaptchaBox, pytrunc, if_pos hx, if_pos hy, if_pos hxw0,
      if_pos hyh0]
  · simp only [cropCaptchaBox, pytrunc, if_pos hx, if_pos hy, if_pos hxw0,
      if_pos hyh0]
    refine ⟨?_, ?_, ?_, ?_, ?_, ?_, ?_, ?_⟩ <;> omega

/-- Witness for the amended C3 at the scenario bounds inside a 2000×1500
screenshot. -/
theorem claim3_witness :
    (0 ≤ (cropCaptchaBox ⟨100, 200, 300, 150⟩ 2000 1500).left
      ∧ (cropCaptchaBox ⟨100, 200, 300, 150⟩ 2000 1500).left ≤ 2000)
      ∧ (0 ≤ (cropCaptchaBox ⟨100, 200, 300, 150⟩ 2000 1500).right
      ∧ (cropCaptchaBox ⟨100, 200, 300, 150⟩ 2000 1500).right ≤ 2000) :=
  ⟨⟨((claim3_amended ⟨100, 200, 300, 150⟩ 2000 1500 (by norm_num) (by norm_num)
      (by norm_num) (by norm_num) (by norm_num) (by norm_num)).2.1).1,
    ((claim3_amended ⟨100, 200, 300, 150⟩ 2000 1500 (by norm_num) (by norm_num)
      (by norm_num) (by norm_num) (by norm_num) (by norm_num)).2.1).2.1⟩,
    ⟨((claim3_amended ⟨100, 200, 300, 150⟩ 2000 1500 (by norm_num) (by norm_num)
      (by norm_num) (by norm_num) (by norm_num) (by norm_num)).2.1).2.2.2.2.1,
    ((claim3_amended ⟨100, 200, 300, 150⟩ 2000 1500 (by norm_num) (by norm_num)
      (by norm_num) (by norm_num) (by norm_num) (by norm_num)).2.1).2.2.2.2.2.1⟩⟩

/-! ## Claim C5: anti-bot classification in `_fetch` -/

/-- Claim C5 as stated is false: for a 403 response whose JSON body carries
error code 90309999, `_fetch` raises the very same exception class
(`SessionExpired`) as for any other 401/403 response — the anti-bot case is
not a distinct error, it differs only in the message. -/
theorem claim5_counterexample :
    excClass (fetchClassify 403 (some ⟨some 90309999, none⟩))
        = some "SessionExpired"
      ∧ excClass (fetchClassify 403 (some ⟨some 0, none⟩))
        = some "SessionExpired"
      ∧ excClass (fetchClassify 403 (some ⟨some 90309999, none⟩))
        = excClass (fetchClassify 403 (some ⟨some 0, none⟩)) :=
  ⟨rfl, rfl, rfl⟩

/-- Claim C5, amended: on a 401 or 403 response, a JSON body with error code
90309999 raises `SessionExpired("Anti-bot block.")` while any other parsed
body raises `SessionExpired("Session expired. ...")` — the same exception
class in both cases, distinguishable only by their (distinct) messages. -/
theorem claim5_amended (status : ℤ) (d : ApiBody)
    (h : status = 401 ∨ status = 403) :
    (d.error = some 90309999 →
        fetchClassify status (some d)
          = .error ⟨"SessionExpired", antiBotMsg⟩)
      ∧ (d.error ≠ some 90309999 →
        fetchClassify status (some d)
          = .error ⟨"SessionExpired", sessionExpiredMsg⟩)
      ∧ antiBotMsg ≠ sessionExpiredMsg := by
  refine ⟨fun he => ?_, fun he => ?_, by decide⟩
  · simp [fetchClassify, if_pos h, he]
  · simp [fetchClassify, if_pos h, he]

/-- Witness for the amended C5 at a concrete anti-bot 403 response. -/
theorem claim5_witness :
    fetchClassify 403 (some ⟨some 90309999, none⟩)
      = .error ⟨"SessionExpired", antiBotMsg⟩ :=
  (claim5_amended 403 ⟨some 90309999, none⟩ (Or.inr rfl)).1 rfl

/-! ## Claim C9: `_report` never raises -/

/-- Claim C9: for every task id, client key and correctness flag, and every
behavior of the underlying feedback API call — including one that raises —
`_report` returns normally, so a report failure can never abort the caller
or replace the original attempt outcome. -/
theorem claim9_report_never_raises
    (apiCall : String → String → String → Except Unit PollResp)
    (apiKey taskId : String) (correct : Bool) :
    reportFeedback apiCall apiKey taskId correct = .ok () := by
  unfold reportFeedback
  cases apiCall (if correct then "reportCorrect" else "reportIncorrect")
      apiKey taskId <;> rfl

/-! ## Claim C10: missing API key short-circuits the solver -/

/-- Claim C10: when no 2captcha API key is found in the environment variable
or any searched .env file, `solve_captcha` returns `False` with an empty
event trace — zero attempts, no oracle call, no browser interaction. -/
theorem claim10_no_key_no_attempts (ke : KeyEnv) (env : Nat → AttemptEnv)
    (h : get_api_key ke = none) :
    solve_captcha ke env = (false, []) := by
  unfold solve_captcha
  rw [h]

/-- An attempt environment in which every external call raises. -/
def errEnv : AttemptEnv :=
  { dismiss := .error (), bounds := .error (), shot := .error ()
    shotW := 0, shotH := 0, createResp := .error (), pollIters := []
    aliveCheck := .error (), layout := .error (), dragJs := .error ()
    verifyGone := .error () }

/-- Witness for C10: with no environment variable and none of the three .env
files present, the key lookup yields nothing and the solver does nothing. -/
theorem claim10_witness :
    get_api_key ⟨none, [none, none, none]⟩ = none
      ∧ solve_captcha ⟨none, [none, none, none]⟩ (fun _ => errEnv)
        = (false, []) :=
  ⟨rfl, claim10_no_key_no_attempts ⟨none, [none, none, none]⟩ (fun _ => errEnv) rfl⟩

/-! ## Orchestrator lemmas -/

lemma attemptStart_not_mem_body (e : AttemptEnv) :
    Ev.attemptStart ∉ (attemptBody e).2 := by
  unfold attemptBody
  repeat' split
  all_goals simp

lemma attemptBody_success (e : AttemptEnv)
    (h : (attemptBody e).1 = AOut.success) : attemptSucceedsB e = true := by
  unfold attemptBody at h
  repeat' split at h
  all_goals simp_all [attemptSucceedsB]

lemma attemptSucceedsB_fields (e : AttemptEnv)
    (h : attemptSucceedsB e = true) :
    e.dragJs = Except.ok true ∧ e.verifyGone = Except.ok true := by
  unfold attemptSucceedsB at h
  split at h
  · exact ⟨by assumption, by assumption⟩
  · exact absurd h (by simp)

lemma count_attemptStart_runAttempt (e : AttemptEnv) :
    ((runAttempt e).2.count Ev.attemptStart) = 1 := by
  unfold runAttempt
  rw [List.count_cons_self]
  rw [List.count_eq_zero.mpr (attemptStart_not_mem_body e)]

lemma runAttempt_success (e : AttemptEnv) (evs : List Ev)
    (h : runAttempt e = (AOut.success, evs)) : attemptSucceedsB e = true := by
  apply attemptBody_success
  have h1 := congrArg Prod.fst h
  simpa [runAttempt] using h1

lemma solveFrom_count (env : Nat → AttemptEnv) :
    ∀ fuel k, ((solveFrom env k fuel).2.count Ev.attemptStart) ≤ fuel := by
  intro fuel
  induction fuel with
  | zero => intro k; simp [solveFrom]
  | succ f ih =>
    intro k
    unfold solveFrom
    rcases h : runAttempt (env k) with ⟨o, evs⟩
    have hc : evs.count Ev.attemptStart = 1 := by
      have h1 := count_attemptStart_runAttempt (env k)
      rw [h] at h1
      exact h1
    cases o
    · simp [hc]
    · simp only [List.count_append, hc]
      have h2 := ih (k + 1)
      omega

lemma solveFrom_true (env : Nat → AttemptEnv) :
    ∀ fuel k, (solveFrom env k fuel).1 = true →
      ∃ j, k ≤ j ∧ j < k + fuel ∧ attemptSucceedsB (env j) = true := by
  intro fuel
  induction fuel with
  | zero => intro k h; simp [solveFrom] at h
  | succ f ih =>
    intro k h
    unfold solveFrom at h
    rcases hr : runAttempt (env k) with ⟨o, evs⟩
    rw [hr] at h
    cases o
    · exact ⟨k, le_refl k, by omega, runAttempt_success (env k) evs hr⟩
    · simp only at h
      obtain ⟨j, hj1, hj2, hj3⟩ := ih (k + 1) h
      exact ⟨j, by omega, by omega, hj3⟩

lemma solveFrom_false (env : Nat → AttemptEnv) :
    ∀ fuel k, (∀ j, k ≤ j → j < k + fuel → attemptSucceedsB (env j) = false) →
      (solveFrom env k fuel).1 = false := by
  intro fuel
  induction fuel with
  | zero => intro k _; simp [solveFrom]
  | succ f ih =>
    intro k hall
    unfold solveFrom
    rcases hr : runAttempt (env k) with ⟨o, evs⟩
    cases o
    · have h1 := runAttempt_success (env k) evs hr
      have hf := hall k (le_refl k) (by omega)
      rw [hf] at h1
      exact absurd h1 (by simp)
    · simp only
      exact ih (k + 1) (fun j h1 h2 => hall j (by omega) (by omega))

/-! ## Claim C1: the orchestrator's attempt bound and result discipline -/

/-- Claim C1: for every key environment and every driver behavior,
`solve_captcha` starts at most `MAX_ATTEMPTS = 8` attempts; it returns `True`
only if some attempt numbered 1..8 satisfied the full success condition —
in particular its drag script succeeded and its post-drag verification check
reported the verification page gone — and if no attempt 1..8 can succeed it
returns `False` as a normal result. -/
theorem claim1_attempt_bound (ke : KeyEnv) (env : Nat → AttemptEnv) :
    ((solve_captcha ke env).2.count Ev.attemptStart ≤ MAX_ATTEMPTS)
      ∧ ((solve_captcha ke env).1 = true →
          ∃ k, 1 ≤ k ∧ k ≤ MAX_ATTEMPTS ∧ attemptSucceedsB (env k) = true
            ∧ (env k).dragJs = Except.ok true
            ∧ (env k).verifyGone = Except.ok true)
      ∧ ((∀ k, 1 ≤ k → k ≤ MAX_ATTEMPTS → attemptSucceedsB (env k) = false) →
          (solve_captcha ke env).1 = false) := by
  unfold solve_captcha
  rcases hk : get_api_key ke with _ | k
  · exact ⟨by simp, by simp, fun _ => rfl⟩
  · dsimp only
    by_cases hk2 : k = ""
    · rw [if_pos hk2]
      exact ⟨by simp, by simp, fun _ => rfl⟩
    · rw [if_neg hk2]
      refine ⟨?_, ?_, ?_⟩
      · simp only [List.count_cons]
        have h1 := solveFrom_count env MAX_ATTEMPTS 1
        simp [MAX_ATTEMPTS] at h1 ⊢
        omega
      · intro h
        simp only at h
        obtain ⟨j, hj1, hj2, hj3⟩ := solveFrom_true env MAX_ATTEMPTS 1 h
        refine ⟨j, hj1, ?_, hj3, (attemptSucceedsB_fields _ hj3).1,
          (attemptSucceedsB_fields _ hj3).2⟩
        simp [MAX_ATTEMPTS] at hj2 ⊢
        omega
      · intro hall
        simp only
        apply solveFrom_false env MAX_ATTEMPTS 1
        intro j h1 h2
        apply hall j h1
        simp [MAX_ATTEMPTS] at h2 ⊢
        omega

/-- Witness for C1: with a key present and every external call raising on
every attempt, the solver returns `False`. -/
theorem claim1_witness :
    (solve_captcha ⟨some "KEY", []⟩ (fun _ => errEnv)).1 = false :=
  (claim1_attempt_bound ⟨some "KEY", []⟩ (fun _ => errEnv)).2.2
    (fun _ _ _ => rfl)

/-! ## Claim C4: behavior after a failed poll -/

/-- Attempt environment in which modal dismissal, the bounds probe, the
screenshot and the task submission all behave, but the oracle poll answers
with a non-zero error id (poll failure, no coordinates). -/
def pollFailEnv : AttemptEnv :=
  { dismiss := .ok (), bounds := .ok (some ⟨100, 200, 300, 150⟩)
    shot := .ok (), shotW := 2000, shotH := 1500
    createResp := .ok ⟨some 0, some "task-1"⟩
    pollIters := [⟨true, true, .ok ⟨some 1, none, none⟩⟩]
    aliveCheck := .ok true, layout := .ok none
    dragJs := .ok false, verifyGone := .ok false }

/-- Claim C4 as stated is false: in an attempt whose task submission
succeeded (`createTask` answered with `errorId = 0` and task id "task-1")
and whose poll ended in failure, the orchestrator performs **no**
`report(false)` and **no** widget refresh — it falls directly through to the
next attempt, contrary to the claim that both happen. -/
theorem claim4_counterexample :
    createTaskResult ⟨some 0, some "task-1"⟩ = some "task-1"
      ∧ (getTaskResult true pollFailEnv.pollIters).1 = Except.ok none
      ∧ runAttempt pollFailEnv
        = (AOut.failed, [Ev.attemptStart, Ev.dismiss, Ev.probeBounds,
            Ev.screenshot, Ev.oracleCreate, Ev.oraclePoll])
      ∧ Ev.report false ∉ (runAttempt pollFailEnv).2
      ∧ Ev.refresh ∉ (runAttempt pollFailEnv).2 := by
  refine ⟨rfl, rfl, rfl, by decide, by decide⟩

/-- Claim C4, amended: in every attempt in which a solve task was created
(submission succeeded with a truthy task id) and the subsequent poll ends in
expired or failure (returns no coordinates), the orchestrator neither
reports nor refreshes the widget for that attempt and moves directly to the
next attempt; the report(false)-then-refresh pairing happens instead on the
post-poll liveness failure, the layout-probe failure and the rejected-drag
paths. -/
theorem claim4_amended (e : AttemptEnv) (b : WidgetBounds) (resp : CreateResp)
    (tid : String)
    (h1 : e.dismiss = Except.ok ()) (h2 : e.bounds = Except.ok (some b))
    (h3 : e.shot = Except.ok ()) (h4 : e.createResp = Except.ok resp)
    (h5 : createTaskResult resp = some tid) (h6 : tid ≠ "")
    (h7 : (getTaskResult true e.pollIters).1 = Except.ok none) :
    runAttempt e
      = (AOut.failed, [Ev.attemptStart, Ev.dismiss, Ev.probeBounds,
          Ev.screenshot, Ev.oracleCreate, Ev.oraclePoll]) := by
  simp [runAttempt, attemptBody, h1, h2, h3, h4, h5, if_neg h6, h7]

/-- Witness for the amended C4 at the concrete poll-failure environment. -/
theorem claim4_witness :
    runAttempt pollFailEnv
      = (AOut.failed, [Ev.attemptStart, Ev.dismiss, Ev.probeBounds,
          Ev.screenshot, Ev.oracleCreate, Ev.oraclePoll]) :=
  claim4_amended pollFailEnv ⟨100, 200, 300, 150⟩ ⟨some 0, some "task-1"⟩
    "task-1" rfl rfl rfl rfl rfl (by decide) rfl

/-! ## Claim C6: failed submission retries without refresh -/

/-- Claim C6: in every attempt that reaches submission, if the oracle's
`createTask` response has a non-zero `errorId`, then `_create_task` returns
no task id and the attempt fails with a trace that ends at the submission —
no refresh, no report, and no browser interaction after the `createTask`
call. -/
theorem claim6_submit_failure (e : AttemptEnv) (b : WidgetBounds)
    (resp : CreateResp)
    (h1 : e.dismiss = Except.ok ()) (h2 : e.bounds = Except.ok (some b))
    (h3 : e.shot = Except.ok ()) (h4 : e.createResp = Except.ok resp)
    (h5 : resp.errorId.getD 1 ≠ 0) :
    createTaskResult resp = none
      ∧ runAttempt e
        = (AOut.failed, [Ev.attemptStart, Ev.dismiss, Ev.probeBounds,
            Ev.screenshot, Ev.oracleCreate]) := by
  have hct : createTaskResult resp = none := by
    simp [createTaskResult, h5]
  exact ⟨hct, by simp [runAttempt, attemptBody, h1, h2, h3, h4, hct]⟩

/-- Attempt environment whose `createTask` response carries `errorId = 1`. -/
def createFailEnv : AttemptEnv :=
  { pollFailEnv with createResp := .ok ⟨some 1, none⟩ }

/-- Witness for C6 at a concrete failed-submission environment. -/
theorem claim6_witness :
    createTaskResult (⟨some 1, none⟩ : CreateResp) = none
      ∧ runAttempt createFailEnv
        = (AOut.failed, [Ev.attemptStart, Ev.dismiss, Ev.probeBounds,
            Ev.screenshot, Ev.oracleCreate]) :=
  claim6_submit_failure createFailEnv ⟨100, 200, 300, 150⟩ ⟨some 1, none⟩
    rfl rfl rfl rfl (by decide)

/-! ## Claim C7: keepalive early exit during polling -/

/-- A poll iteration that neither returns nor raises: its liveness check does
not report the widget gone (either the scripts raised, or the widget was
alive), the oracle request succeeds with `errorId = 0`, and the status is
not "ready". -/
def iterContinues (j : PollIter) : Prop :=
  (j.driverOk = false ∨ j.alive = true)
    ∧ ∃ r, j.pollResp = Except.ok r ∧ r.errorId.getD 1 = 0
      ∧ r.status ≠ some "ready"

/-- Claim C7: during polling with the keepalive hook supplied, if the
liveness check of some iteration reports the slider widget absent (and every
earlier iteration simply continued), the poll returns the expired result
(`none`, no coordinates) on that very iteration — the count of consumed
iterations is exactly the position of that iteration, independent of however
much of the 60-second schedule remains. -/
theorem claim7_keepalive_expiry (pre : List PollIter) (it : PollIter)
    (rest : List PollIter)
    (hpre : ∀ j ∈ pre, iterContinues j)
    (hok : it.driverOk = true) (hdead : it.alive = false) :
    getTaskResult true (pre ++ it :: rest)
      = (Except.ok none, pre.length + 1) := by
  induction pre with
  | nil => simp [getTaskResult, hok, hdead]
  | cons j pre ih =>
    obtain ⟨hcont, r, hr, herr, hstat⟩ := hpre j (by simp)
    have hrec : getTaskResult true (pre ++ it :: rest)
        = (Except.ok none, pre.length + 1) :=
      ih (fun x hx => hpre x (by simp [hx]))
    rcases hcont with hc | hc <;>
      simp [getTaskResult, hc, hr, herr, hstat, hrec]

/-- Witness for C7: one continuing iteration, then the widget disappears; the
poll stops after two iterations even though a ready answer is scheduled
later. -/
theorem claim7_witness :
    getTaskResult true
        ([⟨true, true, .ok ⟨some 0, some "processing", none⟩⟩]
          ++ ⟨true, false, .ok ⟨some 0, some "ready", some [⟨1, 2⟩]⟩⟩
            :: [⟨true, true, .ok ⟨some 0, some "ready", some [⟨1, 2⟩]⟩⟩])
      = (Except.ok none, 2) :=
  claim7_keepalive_expiry _ _ _
    (by
      intro j hj
      simp at hj
      subst hj
      exact ⟨Or.inr rfl, ⟨some 0, some "processing", none⟩, rfl, rfl,
        by decide⟩)
    rfl rfl

/-! ## Claim C8: crop-offset round trip feeds the drag -/

/-- Claim C8: in every attempt that reaches the drag computation, the
page-space x fed into the drag-distance formula is exactly the
oracle-reported cropped-space x plus the `left` offset of the crop box
`_crop_captcha` computed from this attempt's widget bounds and screenshot —
the drag event in the attempt's trace carries
`dragDistance L (c.x + cropLeft)`. -/
theorem claim8_crop_round_trip (e : AttemptEnv) (b : WidgetBounds)
    (resp : CreateResp) (tid : String) (c : Coord) (cs : List Coord)
    (L : CaptchaLayout)
    (h1 : e.dismiss = Except.ok ()) (h2 : e.bounds = Except.ok (some b))
    (h3 : e.shot = Except.ok ()) (h4 : e.createResp = Except.ok resp)
    (h5 : createTaskResult resp = some tid) (h6 : tid ≠ "")
    (h7 : (getTaskResult true e.pollIters).1 = Except.ok (some (c :: cs)))
    (h8 : e.aliveCheck = Except.ok true)
    (h9 : e.layout = Except.ok (some L)) :
    Ev.drag (dragDistance L
        (c.x + ((cropCaptchaBox b e.shotW e.shotH).left : ℚ)))
      ∈ (runAttempt e).2 := by
  simp only [runAttempt, attemptBody, h1, h2, h3, h4, h5, if_neg h6, h7, h8,
    h9, attemptDragDist]
  rcases h10 : e.dragJs with _ | db
  · simp [h10]
  · rcases db with _ | _
    · simp [h10]
    · rcases h11 : e.verifyGone with _ | vb
      · simp [h10, h11]
      · rcases vb with _ | _ <;> simp [h10, h11]

/-- Attempt environment for a fully successful attempt matching the spec's
worked scenario: crop left 90, oracle x 60 in crop space, layout
`{img_x: 50, piece_w: 40, slider_w: 40, track_w: 300}`. -/
def succEnv : AttemptEnv :=
  { dismiss := .ok (), bounds := .ok (some ⟨100, 200, 300, 150⟩)
    shot := .ok (), shotW := 2000, shotH := 1500
    createResp := .ok ⟨some 0, some "task-1"⟩
    pollIters := [⟨true, true, .ok ⟨some 0, some "ready", some [⟨60, 40⟩]⟩⟩]
    aliveCheck := .ok true, layout := .ok (some ⟨50, 40, 40, 300⟩)
    dragJs := .ok true, verifyGone := .ok true }

/-- Witness for C8: in the scenario environment the mapped page x is
60 + 90 = 150 and the dragged distance evaluates to 80. -/
theorem claim8_witness :
    Ev.drag (dragDistance ⟨50, 40, 40, 300⟩
        ((60 : ℚ) + ((cropCaptchaBox ⟨100, 200, 300, 150⟩ 2000 1500).left : ℚ)))
      ∈ (runAttempt succEnv).2
      ∧ dragDistance ⟨50, 40, 40, 300⟩
          ((60 : ℚ) + ((cropCaptchaBox ⟨100, 200, 300, 150⟩ 2000 1500).left : ℚ))
        = 80 :=
  ⟨claim8_crop_round_trip succEnv ⟨100, 200, 300, 150⟩ ⟨some 0, some "task-1"⟩
      "task-1" ⟨60, 40⟩ [] ⟨50, 40, 40, 300⟩ rfl rfl rfl rfl rfl (by decide)
      rfl rfl rfl,
    by norm_num [dragDistance, cropCaptchaBox, pytrunc]⟩

end ShopeeCli
